import Mathlib

/-!
Verification of the PyBuzz bridge (src/PyBuzz/pybuzz/buzz_utility.c) against its
natural-language specification.

The C file is a bridge between Buzz bytecode virtual machines and a Python host.
We give a shallow embedding of its process-wide static state and of the bridge
functions the claims are about.  VM internals (the Buzz interpreter, the Python
runtime, file I/O) are out of scope per the spec; we model them by their
observable effects:

* `buzzvm_execute_script` / `buzzvm_function_call` append events to a per-VM
  trace and bump per-VM counters (one call = one execution of the corresponding
  script body);
* file-system and loader outcomes of `buzz_script_set` are an explicit
  `LoadOutcome` parameter, one constructor per early-return path of the C code;
* Python attribute lookup plus `PyCallable_Check` is an explicit
  `resolve : String → Option (PyFunc F)` parameter (`none` = missing or not
  callable);
* C `float`/`double` payloads are an arbitrary type parameter `F`: they are
  carried through the bridge unchanged and no claim computes with them.

Machine integers: the only overflowing conversion in the claims is the
`(uint16_t)neighbour_id` cast in `add_neighbor`, embedded as `% 65536` on `Int`
(C's conversion to an unsigned 16-bit type reduces the value modulo 2^16).
-/

namespace PyBuzz

/-- Buzz VM tagged values (buzzobj types: nil, int, float, table, closure,
string, userdata).  `F` is the C float payload type; table/closure/userdata
payloads are irrelevant to the bridge and kept schematic. -/
inductive BuzzObj (F : Type) where
  | nil
  | int (i : Int)
  | float (x : F)
  | table (elems : Nat)
  | closure (ref : Int)
  | string (s : String)
  | userdata
deriving DecidableEq

/-- Host (Python) values as the bridge distinguishes them: the trampoline
checks `PyLong_Check`, `PyFloat_Check`, `PyBytes_Check` in that order and
treats everything else uniformly (`other` also covers Py_None results). -/
inductive PyObj (F : Type) where
  | long (i : Int)
  | float (x : F)
  | bytes (s : String)
  | none
  | other
deriving DecidableEq

/-- A bound host callable: takes the positional-argument tuple, returns one
value.  (Python calls are opaque to the bridge.) -/
def PyFunc (F : Type) : Type := List (PyObj F) → PyObj F

/-- Buzz VM execution states (buzzvm_state: NOCODE before set_bcode, READY,
DONE, ERROR). -/
inductive BuzzvmState where
  | nocode
  | ready
  | done
  | error
deriving DecidableEq

/-- Events emitted by `buzz_script_step`, in the order the C code performs
them: `buzzvm_execute_script`, `buzzvm_function_call(vm, "init", 0)`,
`buzzvm_process_inmsgs`, `buzzvm_function_call(vm, "step", 0)`. -/
inductive StepEvent where
  | execScript
  | callInit
  | procInmsgs
  | callStep
deriving DecidableEq

/-- One Buzz VM instance (a `buzzvm_t`), restricted to the state the claims
observe.  `strtab` is the VM string table, `hookGlobals` records the
script-visible hook names installed by `register_hook` (name, slot),
`trace`/`topLevelRuns`/`initCalls` record the VM-internal calls made by
`buzz_script_step`. -/
structure BuzzVM (F : Type) where
  state : BuzzvmState := .nocode
  strtab : List String := []
  hookGlobals : List (String × Nat) := []
  inmsgs : List (Nat × List Nat) := []
  outmsgs : List (List Nat) := []
  neighbors : List (Nat × F × F × F) := []
  trace : List StepEvent := []
  topLevelRuns : Nat := 0
  initCalls : Nat := 0

/-- `#define MAX_NUM_VIRTUAL_MACHINES 15` (buzz_utility.h). -/
def MAX_NUM_VIRTUAL_MACHINES : Nat := 15

/-- The process-wide static state of buzz_utility.c.

`vms` embeds `static buzzvm_t all_virtual_machines[MAX_NUM_VIRTUAL_MACHINES]`.
The C array has exactly `MAX_NUM_VIRTUAL_MACHINES` slots and `buzz_script_set`
stores at index `num_virtual_machines` with no capacity check, so a store at
an index `≥ MAX_NUM_VIRTUAL_MACHINES` is an out-of-bounds write; we use a
total map so that this state is still expressible, and `none` models a slot
that was never set or whose VM has been freed (`buzzvm_destroy` frees the
object; the slot then dangles and reading it is undefined).

`currentVM` embeds `static buzzvm_t vm`, the global current-VM pointer that
every bridge call reassigns (`vm = all_virtual_machines[vmid]`), as the index
it points at (`none` = NULL).

`vmStepped` embeds `static int vm_stepped[MAX_NUM_VIRTUAL_MACHINES]`,
`pythonFuncs` embeds `static PyObject* python_funcs[20]`, `messageSize`
embeds `static int message_size`, `boFname` embeds `static char* BO_FNAME`. -/
structure BridgeState (F : Type) where
  vms : Nat → Option (BuzzVM F)
  numVMs : Nat
  currentVM : Option Nat
  vmStepped : Nat → Bool
  pythonFuncs : Nat → Option (PyFunc F)
  messageSize : Nat
  boFname : Option String

/-- Static-storage initialization: all zero / NULL / false. -/
def initialState (F : Type) : BridgeState F :=
  { vms := fun _ => Option.none
    numVMs := 0
    currentVM := Option.none
    vmStepped := fun _ => false
    pythonFuncs := fun _ => Option.none
    messageSize := 0
    boFname := Option.none }

/-- Pointwise update of the registry array. -/
def setVM (vms : Nat → Option (BuzzVM F)) (i : Nat) (v : Option (BuzzVM F)) :
    Nat → Option (BuzzVM F) :=
  fun j => if j = i then v else vms j

/-- Apply `f` to the VM stored at index `i` (no-op on an empty/dangling slot;
calling a bridge function with an unloaded vmid is undefined in C). -/
def modifyVM (st : BridgeState F) (i : Nat) (f : BuzzVM F → BuzzVM F) :
    BridgeState F :=
  { st with vms := setVM st.vms i ((st.vms i).map f) }

@[simp] theorem setVM_same (vms : Nat → Option (BuzzVM F)) (i : Nat)
    (v : Option (BuzzVM F)) : setVM vms i v i = v := by
  simp [setVM]

@[simp] theorem setVM_other (vms : Nat → Option (BuzzVM F)) (i j : Nat)
    (v : Option (BuzzVM F)) (h : j ≠ i) : setVM vms i v j = vms j := by
  simp [setVM, h]

@[simp] theorem modifyVM_vms_same (st : BridgeState F) (i : Nat)
    (f : BuzzVM F → BuzzVM F) : (modifyVM st i f).vms i = (st.vms i).map f := by
  simp [modifyVM]

@[simp] theorem modifyVM_vms_other (st : BridgeState F) (i j : Nat)
    (f : BuzzVM F → BuzzVM F) (h : j ≠ i) :
    (modifyVM st i f).vms j = st.vms j := by
  simp [modifyVM, h]

@[simp] theorem modifyVM_numVMs (st : BridgeState F) (i : Nat)
    (f : BuzzVM F → BuzzVM F) : (modifyVM st i f).numVMs = st.numVMs := rfl

@[simp] theorem modifyVM_vmStepped (st : BridgeState F) (i : Nat)
    (f : BuzzVM F → BuzzVM F) : (modifyVM st i f).vmStepped = st.vmStepped := rfl

@[simp] theorem modifyVM_currentVM (st : BridgeState F) (i : Nat)
    (f : BuzzVM F → BuzzVM F) : (modifyVM st i f).currentVM = st.currentVM := rfl

@[simp] theorem modifyVM_messageSize (st : BridgeState F) (i : Nat)
    (f : BuzzVM F → BuzzVM F) : (modifyVM st i f).messageSize = st.messageSize := rfl

@[simp] theorem modifyVM_pythonFuncs (st : BridgeState F) (i : Nat)
    (f : BuzzVM F → BuzzVM F) : (modifyVM st i f).pythonFuncs = st.pythonFuncs := rfl

/-- Observable accessors (defaulting on an unset slot, which no proved claim
relies on). -/
def vmTopLevelRuns (st : BridgeState F) (vmid : Nat) : Nat :=
  ((st.vms vmid).map BuzzVM.topLevelRuns).getD 0

def vmInitCalls (st : BridgeState F) (vmid : Nat) : Nat :=
  ((st.vms vmid).map BuzzVM.initCalls).getD 0

def vmTrace (st : BridgeState F) (vmid : Nat) : List StepEvent :=
  ((st.vms vmid).map BuzzVM.trace).getD []

def vmNeighbors (st : BridgeState F) (vmid : Nat) : List (Nat × F × F × F) :=
  ((st.vms vmid).map BuzzVM.neighbors).getD []

/-! ## buzz_error_info (Error Reporter) -/

/-- One entry of the debug-symbol table (`buzzdebug_entry_t`): source file
name, line, column. -/
structure buzzdebug_entry where
  fname : String
  line : Nat
  col : Nat
deriving DecidableEq

/-- `buzz_error_info` (buzz_utility.c lines 41-61).  `bo_fname` is the global
`BO_FNAME`; `dbg` is the result of
`*buzzdebug_info_get_fromoffset(DBG_INFO, &vm->pc)` (`none` when the offset
does not resolve); `pc` is `vm->pc`; `errormsg` is `vm->errormsg`.  The two
branches mirror the two `asprintf` format strings, including the space before
the colon that separates the source location from the error message and the
two trailing newlines. -/
def buzz_error_info (bo_fname : String) (dbg : Option buzzdebug_entry)
    (pc : Nat) (errormsg : String) : String :=
  match dbg with
  | Option.some d =>
      bo_fname ++ ": execution terminated abnormally at " ++ d.fname ++ ":" ++
        toString d.line ++ ":" ++ toString d.col ++ " : " ++ errormsg ++ "\n\n"
  | Option.none =>
      bo_fname ++ ": execution terminated abnormally at bytecode offset " ++
        toString pc ++ ": " ++ errormsg ++ "\n\n"

/-- The diagnostic string exactly as claim C7 words it (spec section 4.5):
`<script-name>: execution terminated abnormally at <file>:<line>:<col>: <msg>`
resp. `<script-name>: execution terminated abnormally at bytecode offset
<offset>: <msg>`, with no space before the final colon and no trailing
newlines.  Written from the spec, for comparison with `buzz_error_info`. -/
def explain_claimed (bo_fname : String) (dbg : Option buzzdebug_entry)
    (pc : Nat) (errormsg : String) : String :=
  match dbg with
  | Option.some d =>
      bo_fname ++ ": execution terminated abnormally at " ++ d.fname ++ ":" ++
        toString d.line ++ ":" ++ toString d.col ++ ": " ++ errormsg
  | Option.none =>
      bo_fname ++ ": execution terminated abnormally at bytecode offset " ++
        toString pc ++ ": " ++ errormsg

/-- The diagnostic string as amended: in the resolved case the column and the
VM error message are separated by " : " (space, colon, space), and both
branches append two trailing newline characters; otherwise as the claim
states.  Written from the amended wording, for comparison with
`buzz_error_info`. -/
def explain_amended (bo_fname : String) (dbg : Option buzzdebug_entry)
    (pc : Nat) (errormsg : String) : String :=
  match dbg with
  | Option.some d =>
      bo_fname ++ ": execution terminated abnormally at " ++ d.fname ++ ":" ++
        toString d.line ++ ":" ++ toString d.col ++ " : " ++ errormsg ++ "\n\n"
  | Option.none =>
      bo_fname ++ ": execution terminated abnormally at bytecode offset " ++
        toString pc ++ ": " ++ errormsg ++ "\n\n"

/-- Claim C7, counterexample: at a concrete resolved debug location the string
produced by `buzz_error_info` is not the string the claim specifies (the code
inserts a space before the colon preceding the VM error message and appends
two newlines). -/
theorem buzz_error_info_ne_claimed :
    buzz_error_info "script.bo" (Option.some ⟨"s.bzz", 3, 7⟩) 42 "boom" ≠
      explain_claimed "script.bo" (Option.some ⟨"s.bzz", 3, 7⟩) 42 "boom" := by
  decide

/-- Claim C7 (amended): for every script name, debug-resolution result,
bytecode offset and VM error message, `buzz_error_info` produces exactly the
amended format: `"<script-name>: execution terminated abnormally at
<file>:<line>:<col> : <vm-error-message>\n\n"` when the debug table resolves
the offset, and `"<script-name>: execution terminated abnormally at bytecode
offset <offset>: <vm-error-message>\n\n"` otherwise. -/
theorem buzz_error_info_format (bo_fname : String)
    (dbg : Option buzzdebug_entry) (pc : Nat) (errormsg : String) :
    buzz_error_info bo_fname dbg pc errormsg =
      explain_amended bo_fname dbg pc errormsg := by
  cases dbg <;> rfl

/-- Claim C7 witness: the amended format theorem applied at a concrete
resolved location and at a concrete unresolved offset. -/
theorem buzz_error_info_format_witness :
    buzz_error_info "script.bo" (Option.some ⟨"s.bzz", 3, 7⟩) 42 "boom" =
      explain_amended "script.bo" (Option.some ⟨"s.bzz", 3, 7⟩) 42 "boom" ∧
    buzz_error_info "script.bo" Option.none 42 "boom" =
      explain_amended "script.bo" Option.none 42 "boom" :=
  ⟨buzz_error_info_format "script.bo" (Option.some ⟨"s.bzz", 3, 7⟩) 42 "boom",
   buzz_error_info_format "script.bo" Option.none 42 "boom"⟩

/-! ## buzz_script_set (load) and the VM registry -/

/-- A fresh VM as produced by `buzzvm_new(comm_id)`: no bytecode loaded yet.
The communication id is VM-internal and not observed by any claim. -/
def buzzvm_new (F : Type) : BuzzVM F := {}

/-- The environment-dependent outcomes of `buzz_script_set`, one constructor
per early-return path of the C code, in source order: `fopen` returns NULL;
`fread` returns fewer than `bcode_size` bytes; `buzzdebug_fromfile` fails;
`buzzvm_set_bcode` does not leave the VM in BUZZVM_STATE_READY; everything
succeeds. -/
inductive LoadOutcome where
  | fopenFail
  | shortRead
  | dbgBad
  | bcodeRejected
  | ok
deriving DecidableEq

/-- `buzz_script_set` (buzz_utility.c lines 231-304).  Returns the new state
and the C return value (0 success, 1 failure).

Faithful to the C control flow: the function FIRST stores the fresh VM at
index `num_virtual_machines` and increments the counter — with no capacity
check against `MAX_NUM_VIRTUAL_MACHINES` — and only then reads the files and
loads the bytecode.  On the `fopen` failure path it returns 1 leaving the
fresh VM in the registry; on the other failure paths it calls
`buzzvm_destroy(&vm)` (the freed slot is modelled as `none`, the nulled
global `vm` as `currentVM := none`) but never decrements
`num_virtual_machines` nor clears the array slot's pointer.  On success the
VM is READY (its string table holding the names registered by the four
`buzzvm_string_register` calls for print/log/True/False) and `BO_FNAME` is
set.  The global DBG_INFO replacement and BO_BUF are not observed by any
claim and are omitted. -/
def buzz_script_set (st : BridgeState F) (bo_filename : String)
    (bdbg_filename : String) (comm_id : Int) (outcome : LoadOutcome) :
    BridgeState F × Int :=
  let idx := st.numVMs
  let st1 : BridgeState F :=
    { st with
      vms := setVM st.vms idx (Option.some (buzzvm_new F))
      numVMs := st.numVMs + 1
      currentVM := Option.some idx }
  match outcome with
  | .fopenFail => (st1, 1)
  | .shortRead =>
      ({ st1 with vms := setVM st1.vms idx Option.none,
                  currentVM := Option.none }, 1)
  | .dbgBad =>
      ({ st1 with vms := setVM st1.vms idx Option.none,
                  currentVM := Option.none }, 1)
  | .bcodeRejected =>
      ({ st1 with vms := setVM st1.vms idx Option.none,
                  currentVM := Option.none }, 1)
  | .ok =>
      ({ st1 with
         vms := setVM st1.vms idx
           (Option.some { buzzvm_new F with
              state := .ready
              strtab := ["print", "log", "True", "False"] })
         boFname := Option.some bo_filename }, 0)

/-- `get_num_virtual_machines` (buzz_utility.c lines 66-68). -/
def get_num_virtual_machines (st : BridgeState F) : Nat :=
  st.numVMs

/-- The registry after 15 successful loads from a fresh process. -/
def fullRegistry : BridgeState Int :=
  (fun s => (buzz_script_set s "s.bo" "s.bdbg" 0 LoadOutcome.ok).1)^[15]
    (initialState Int)

/-- Claim C1, code bug: after `MAX_NUM_VIRTUAL_MACHINES` (15) successful
loads the live count is 15 — and 15 is NOT a valid index of the 15-element
registry array — yet a 16th `buzz_script_set` call does not fail with a
capacity error: it stores at index 15 (an out-of-bounds write in C),
increments the live count to 16 and returns 0 (success). -/
theorem buzz_script_set_no_capacity_check :
    get_num_virtual_machines fullRegistry = MAX_NUM_VIRTUAL_MACHINES ∧
    ¬ get_num_virtual_machines fullRegistry < MAX_NUM_VIRTUAL_MACHINES ∧
    (buzz_script_set fullRegistry "s.bo" "s.bdbg" 0 LoadOutcome.ok).2 = 0 ∧
    get_num_virtual_machines
        (buzz_script_set fullRegistry "s.bo" "s.bdbg" 0 LoadOutcome.ok).1 =
      MAX_NUM_VIRTUAL_MACHINES + 1 := by
  refine ⟨?_, ?_, rfl, ?_⟩ <;> decide

/-- Claim C3, code bug: a load whose bytecode file cannot even be opened
still changes the registry — starting from the fresh process state (live
count 0), the failed call returns 1 but `get_num_virtual_machines` afterwards
reports 1, because `buzz_script_set` stores the new VM and increments
`num_virtual_machines` before any validation and its failure paths never roll
that back.  The same holds for a short read: the VM is destroyed but the
count stays incremented (and the array slot dangles). -/
theorem buzz_script_set_failure_touches_registry :
    (buzz_script_set (initialState Int) "missing.bo" "missing.bdbg" 0
        LoadOutcome.fopenFail).2 = 1 ∧
    get_num_virtual_machines (initialState Int) = 0 ∧
    get_num_virtual_machines
        (buzz_script_set (initialState Int) "missing.bo" "missing.bdbg" 0
          LoadOutcome.fopenFail).1 = 1 ∧
    (buzz_script_set (initialState Int) "s.bo" "s.bdbg" 0
        LoadOutcome.shortRead).2 = 1 ∧
    get_num_virtual_machines
        (buzz_script_set (initialState Int) "s.bo" "s.bdbg" 0
          LoadOutcome.shortRead).1 = 1 := by
  refine ⟨rfl, rfl, ?_, rfl, ?_⟩ <;> decide

/-! ## buzz_script_step and buzz_script_done (Execution Controller) -/

/-- `buzz_script_step` (buzz_utility.c lines 380-403).

Control flow of the C function, in order:
1. `vm = all_virtual_machines[vmid]` (reassigns the global current-VM
   pointer);
2. if `!vm_stepped[vmid]`: `buzzvm_execute_script(vm)` (run the top-level
   script body), `buzzvm_function_call(vm, "init", 0)`, then
   `vm_stepped[vmid] = 1`;
3. `buzzvm_process_inmsgs(vm)` (drain the inbound message queue into the
   VM's message processing);
4. `buzzvm_function_call(vm, "step", 0)`; on a non-READY result the C code
   prints a diagnostic and dumps the VM, which changes no bridge state and is
   omitted.

The VM-internal calls are modelled by their trace events and counters. -/
def buzz_script_step (st : BridgeState F) (vmid : Nat) : BridgeState F :=
  let st0 : BridgeState F := { st with currentVM := Option.some vmid }
  let st1 : BridgeState F :=
    if st0.vmStepped vmid = true then st0
    else
      let stA := modifyVM st0 vmid (fun v =>
        { v with trace := v.trace ++ [StepEvent.execScript]
                 topLevelRuns := v.topLevelRuns + 1 })
      let stB := modifyVM stA vmid (fun v =>
        { v with trace := v.trace ++ [StepEvent.callInit]
                 initCalls := v.initCalls + 1 })
      { stB with vmStepped := fun j => if j = vmid then true else stB.vmStepped j }
  let st2 := modifyVM st1 vmid (fun v =>
    { v with trace := v.trace ++ [StepEvent.procInmsgs], inmsgs := [] })
  modifyVM st2 vmid (fun v =>
    { v with trace := v.trace ++ [StepEvent.callStep] })

/-- N repeated `buzz_script_step(vmid)` calls. -/
def stepN (st : BridgeState F) (vmid : Nat) (n : Nat) : BridgeState F :=
  (fun s => buzz_script_step s vmid)^[n] st

/-- `buzz_script_done` (buzz_utility.c lines 451-453):
`return vm->state != BUZZVM_STATE_READY;`.  Note that the C body reads the
GLOBAL current-VM pointer `vm` and never uses its `vmid` parameter — it does
not do `vm = all_virtual_machines[vmid]` like every other bridge function.
`none` models the NULL-pointer dereference when no VM is current. -/
def buzz_script_done (st : BridgeState F) (vmid : Nat) : Option Bool :=
  st.currentVM.bind fun j =>
    (st.vms j).map fun v => decide (v.state ≠ BuzzvmState.ready)

/-- A READY VM with no recorded activity, for concrete registry states. -/
def readyVM : BuzzVM Int := { state := .ready }

/-- A faulted (BUZZVM_STATE_ERROR) VM. -/
def faultedVM : BuzzVM Int := { state := .error }

/-- A registry with VM 0 faulted and VM 1 ready, both already past their
first step. -/
def doneScenario : BridgeState Int :=
  { initialState Int with
    vms := fun j =>
      if j = 0 then Option.some faultedVM
      else if j = 1 then Option.some readyVM
      else Option.none
    numVMs := 2
    vmStepped := fun _ => true }

/-- Claim C2, code bug: `buzz_script_done(vmid)` does not report on the VM at
index `vmid` — it reports on whichever VM the last bridge call selected into
the global current-VM pointer.  Concretely: with VM 0 faulted (state ERROR)
and VM 1 ready, after `buzz_script_step(1)` the call `buzz_script_done(0)`
returns false even though VM 0's state is not READY, because it reads VM 1
through the global pointer. -/
theorem buzz_script_done_ignores_vmid :
    ((buzz_script_step doneScenario 1).vms 0).map BuzzVM.state =
      Option.some BuzzvmState.error ∧
    buzz_script_done (buzz_script_step doneScenario 1) 0 =
      Option.some false := by
  refine ⟨?_, ?_⟩ <;>
    simp [buzz_script_step, buzz_script_done, doneScenario, modifyVM, setVM,
      initialState, readyVM, faultedVM]

/-! ### The init-once guarantee (C4) -/

/-- A step on a VM whose stepped-flag is already set leaves its top-level and
init counters unchanged and the flag set. -/
theorem step_after_first (st : BridgeState F) (vmid : Nat)
    (h : st.vmStepped vmid = true) :
    vmTopLevelRuns (buzz_script_step st vmid) vmid = vmTopLevelRuns st vmid ∧
    vmInitCalls (buzz_script_step st vmid) vmid = vmInitCalls st vmid ∧
    (buzz_script_step st vmid).vmStepped vmid = true := by
  cases hv : st.vms vmid <;>
    simp [buzz_script_step, vmTopLevelRuns, vmInitCalls, modifyVM, setVM, h, hv]

/-- The first step on a loaded VM runs the top-level body and `init` once
each and sets the stepped-flag. -/
theorem step_first (st : BridgeState F) (vmid : Nat) (v : BuzzVM F)
    (hv : st.vms vmid = Option.some v) (h : st.vmStepped vmid = false) :
    vmTopLevelRuns (buzz_script_step st vmid) vmid = v.topLevelRuns + 1 ∧
    vmInitCalls (buzz_script_step st vmid) vmid = v.initCalls + 1 ∧
    (buzz_script_step st vmid).vmStepped vmid = true := by
  simp [buzz_script_step, vmTopLevelRuns, vmInitCalls, modifyVM, setVM, h, hv]

/-- Iterating steps from an already-stepped state never changes the one-time
counters. -/
theorem stepN_after_first (n : Nat) (st : BridgeState F) (vmid : Nat)
    (h : st.vmStepped vmid = true) :
    vmTopLevelRuns (stepN st vmid n) vmid = vmTopLevelRuns st vmid ∧
    vmInitCalls (stepN st vmid n) vmid = vmInitCalls st vmid ∧
    (stepN st vmid n).vmStepped vmid = true := by
  induction n generalizing st with
  | zero => exact ⟨rfl, rfl, h⟩
  | succ m ih =>
      obtain ⟨h1, h2, h3⟩ := step_after_first st vmid h
      obtain ⟨g1, g2, g3⟩ := ih (buzz_script_step st vmid) h3
      rw [stepN, Function.iterate_succ_apply]
      exact ⟨by rw [← h1]; exact g1, by rw [← h2]; exact g2, g3⟩

/-- Claim C4: for every loaded VM whose one-time initialization has not yet
fired (fresh from `load`: stepped-flag false, counters zero) and every
N ≥ 1, after N calls to `buzz_script_step(vmid)` the VM's top-level script
body and its `init` entry point have each been executed exactly once — the
first call runs them, gated by `vm_stepped[vmid]`, and every further call
skips them no matter how large N is. -/
theorem buzz_script_step_init_once (st : BridgeState F) (vmid : Nat)
    (v : BuzzVM F) (n : Nat) (hv : st.vms vmid = Option.some v)
    (htop : v.topLevelRuns = 0) (hinit : v.initCalls = 0)
    (hflag : st.vmStepped vmid = false) (hn : 1 ≤ n) :
    vmTopLevelRuns (stepN st vmid n) vmid = 1 ∧
    vmInitCalls (stepN st vmid n) vmid = 1 := by
  obtain ⟨m, rfl⟩ : ∃ m, n = m + 1 := ⟨n - 1, by omega⟩
  obtain ⟨h1, h2, h3⟩ := step_first st vmid v hv hflag
  obtain ⟨g1, g2, _⟩ := stepN_after_first m (buzz_script_step st vmid) vmid h3
  rw [stepN, Function.iterate_succ_apply]
  rw [stepN] at g1 g2
  constructor
  · rw [g1, h1, htop]
  · rw [g2, h2, hinit]

/-- A fresh, never-stepped READY VM registered at index 0, as left by one
successful load. -/
def freshScenario : BridgeState Int :=
  (buzz_script_set (initialState Int) "s.bo" "s.bdbg" 0 LoadOutcome.ok).1

/-- Claim C4 witness: in the registry left by one successful load, stepping
VM 0 three times runs the top-level body and `init` exactly once each. -/
theorem buzz_script_step_init_once_witness :
    freshScenario.vms 0 =
      Option.some { buzzvm_new Int with
        state := .ready, strtab := ["print", "log", "True", "False"] } ∧
    freshScenario.vmStepped 0 = false ∧
    (vmTopLevelRuns (stepN freshScenario 0 3) 0 = 1 ∧
     vmInitCalls (stepN freshScenario 0 3) 0 = 1) :=
  ⟨rfl, rfl,
   buzz_script_step_init_once freshScenario 0
     { buzzvm_new Int with
       state := .ready, strtab := ["print", "log", "True", "False"] }
     3 rfl rfl rfl rfl (by decide)⟩

/-! ### Draining precedes the step call (C6) -/

/-- Claim C6: within every single `buzz_script_step(vmid)` call on a loaded
VM, the events appended to that VM's trace end with the inbound-queue drain
(`buzzvm_process_inmsgs`) immediately followed by the call to the script's
`step` entry point, and neither event occurs earlier in the same call — so
message-draining always precedes the `step` entry point. -/
theorem buzz_script_step_drain_before_step (st : BridgeState F) (vmid : Nat)
    (v : BuzzVM F) (hv : st.vms vmid = Option.some v) :
    ∃ pre : List StepEvent,
      vmTrace (buzz_script_step st vmid) vmid =
        v.trace ++ (pre ++ [StepEvent.procInmsgs, StepEvent.callStep]) ∧
      StepEvent.procInmsgs ∉ pre ∧ StepEvent.callStep ∉ pre := by
  by_cases h : st.vmStepped vmid = true
  · refine ⟨[], ?_, by simp, by simp⟩
    simp [buzz_script_step, vmTrace, modifyVM, setVM, h, hv]
  · have h' : st.vmStepped vmid = false := by
      revert h; cases st.vmStepped vmid <;> simp
    refine ⟨[StepEvent.execScript, StepEvent.callInit], ?_, by decide, by decide⟩
    simp [buzz_script_step, vmTrace, modifyVM, setVM, h', hv]

/-- Claim C6 witness: the drain-before-step decomposition applied to the
still-unstepped VM 0 of the one-load registry (where the call also performs
the one-time initialization first). -/
theorem buzz_script_step_drain_before_step_witness :
    freshScenario.vms 0 =
      Option.some { buzzvm_new Int with
        state := .ready, strtab := ["print", "log", "True", "False"] } ∧
    (∃ pre : List StepEvent,
      vmTrace (buzz_script_step freshScenario 0) 0 =
        ({ buzzvm_new Int with
           state := .ready,
           strtab := ["print", "log", "True", "False"] : BuzzVM Int}).trace ++
          (pre ++ [StepEvent.procInmsgs, StepEvent.callStep]) ∧
      StepEvent.procInmsgs ∉ pre ∧ StepEvent.callStep ∉ pre) :=
  ⟨rfl,
   buzz_script_step_drain_before_step freshScenario 0
     { buzzvm_new Int with
       state := .ready, strtab := ["print", "log", "True", "False"] } rfl⟩

/-! ## python_callback, the hook table and register_hook -/

/-- The VM-to-host argument conversion performed by the switch in
`python_callback` (buzz_utility.c lines 128-141): INT via `PyLong_FromLong`,
FLOAT via `PyFloat_FromDouble`, STRING via `PyBytes_FromString`, and every
other tag falls to the default branch, which passes `Py_None`. -/
def marshal_arg : BuzzObj F → PyObj F
  | .int i => .long i
  | .float x => .float x
  | .string s => .bytes s
  | _ => PyObj.none

/-- `buzzvm_string_register(vm, s, 1)`: look the string up in the VM's string
table, appending it if absent; return the updated table and the string id. -/
def buzzvm_string_register (tab : List String) (s : String) :
    List String × Nat :=
  if s ∈ tab then (tab, tab.indexOf s) else (tab ++ [s], tab.length)

theorem mem_buzzvm_string_register (tab : List String) (s : String) :
    s ∈ (buzzvm_string_register tab s).1 := by
  by_cases h : s ∈ tab <;> simp [buzzvm_string_register, h]

/-- The observable effect of one `python_callback` invocation: the positional
argument tuple handed to `PyObject_CallObject`, the value pushed back on the
VM stack, the VM string table afterwards, and the number of return values
reported to the VM (`buzzvm_ret1` reports 1). -/
structure CallbackEffect (F : Type) where
  hostArgs : List (PyObj F)
  pushed : BuzzObj F
  strtab : List String
  nret : Nat

/-- `python_callback` (buzz_utility.c lines 118-157).

`funcs` is the global `python_funcs` array; `lsyms` is the VM's current
local-symbol frame `vm->lsyms->syms` whose slot 0 is the callee itself, so
the loop `for i in 1..size-1` converts exactly the positional arguments
`lsyms.drop 1`, storing the conversion of symbol `i` at tuple index `i-1`
(original order).  The tuple is passed to `python_funcs[hook_id]`; calling an
unregistered slot dereferences NULL in C, modelled as `none`.  The result is
converted by the if-chain `PyLong_Check` / `PyFloat_Check` / `PyBytes_Check`
(int pushed with `buzzvm_pushi`, float with `buzzvm_pushf`, bytes registered
in the string table and pushed with `buzzvm_pushs`) with a final
`buzzvm_pushnil` fallback, and the function returns `buzzvm_ret1(vm)`. -/
def python_callback (funcs : Nat → Option (PyFunc F)) (hook_id : Nat)
    (lsyms : List (BuzzObj F)) (strtab : List String) :
    Option (CallbackEffect F) :=
  let pArgs := (lsyms.drop 1).map marshal_arg
  match funcs hook_id with
  | Option.none => Option.none
  | Option.some f =>
      Option.some <|
        match f pArgs with
        | .long i => ⟨pArgs, .int i, strtab, 1⟩
        | .float x => ⟨pArgs, .float x, strtab, 1⟩
        | .bytes s => ⟨pArgs, .string s, (buzzvm_string_register strtab s).1, 1⟩
        | PyObj.none => ⟨pArgs, .nil, strtab, 1⟩
        | .other => ⟨pArgs, .nil, strtab, 1⟩

/-- Claim C5: invoking the trampoline of slot `k` with M positional arguments
calls the bound host callable with exactly the M arguments in original order,
each converted by tag (Int to host int, Float to host float, String to host
bytes, every other tag to the host null placeholder); the callable's single
return value is converted back (host int to VM Int, host float to VM Float,
host bytes to a VM string interned in the string table, anything else to VM
Nil) and pushed with one-return-value (`buzzvm_ret1`) semantics. -/
theorem python_callback_marshals (funcs : Nat → Option (PyFunc F)) (k : Nat)
    (f : PyFunc F) (self : BuzzObj F) (args : List (BuzzObj F))
    (tab : List String) (hf : funcs k = Option.some f) :
    ∃ eff : CallbackEffect F,
      python_callback funcs k (self :: args) tab = Option.some eff ∧
      eff.hostArgs = args.map marshal_arg ∧
      eff.hostArgs.length = args.length ∧
      eff.nret = 1 ∧
      (∀ i : Int, marshal_arg (F := F) (.int i) = .long i) ∧
      (∀ x : F, marshal_arg (.float x) = .float x) ∧
      (∀ s : String, marshal_arg (F := F) (.string s) = .bytes s) ∧
      (marshal_arg (F := F) .nil = PyObj.none ∧
       (∀ n : Nat, marshal_arg (F := F) (.table n) = PyObj.none) ∧
       (∀ r : Int, marshal_arg (F := F) (.closure r) = PyObj.none) ∧
       marshal_arg (F := F) .userdata = PyObj.none) ∧
      eff.pushed = (match f (args.map marshal_arg) with
        | .long i => BuzzObj.int i
        | .float x => BuzzObj.float x
        | .bytes s => BuzzObj.string s
        | _ => BuzzObj.nil) ∧
      eff.strtab = (match f (args.map marshal_arg) with
        | .bytes s => (buzzvm_string_register tab s).1
        | _ => tab) ∧
      (∀ s : String, f (args.map marshal_arg) = .bytes s → s ∈ eff.strtab) := by
  have hdrop : (self :: args).drop 1 = args := rfl
  cases hval : f (args.map marshal_arg) with
  | long i =>
      refine ⟨⟨args.map marshal_arg, .int i, tab, 1⟩, ?_, rfl, by simp, rfl,
        fun _ => rfl, fun _ => rfl, fun _ => rfl,
        ⟨rfl, fun _ => rfl, fun _ => rfl, rfl⟩, rfl, rfl, fun s hs => nomatch hs⟩
      simp [python_callback, hf, hdrop, hval]
  | float x =>
      refine ⟨⟨args.map marshal_arg, .float x, tab, 1⟩, ?_, rfl, by simp, rfl,
        fun _ => rfl, fun _ => rfl, fun _ => rfl,
        ⟨rfl, fun _ => rfl, fun _ => rfl, rfl⟩, rfl, rfl, fun s hs => nomatch hs⟩
      simp [python_callback, hf, hdrop, hval]
  | bytes s =>
      refine ⟨⟨args.map marshal_arg, .string s,
          (buzzvm_string_register tab s).1, 1⟩, ?_, rfl, by simp, rfl,
        fun _ => rfl, fun _ => rfl, fun _ => rfl,
        ⟨rfl, fun _ => rfl, fun _ => rfl, rfl⟩, rfl, rfl, ?_⟩
      · simp [python_callback, hf, hdrop, hval]
      · intro t ht
        injection ht with h
        subst h
        exact mem_buzzvm_string_register tab s
  | none =>
      refine ⟨⟨args.map marshal_arg, .nil, tab, 1⟩, ?_, rfl, by simp, rfl,
        fun _ => rfl, fun _ => rfl, fun _ => rfl,
        ⟨rfl, fun _ => rfl, fun _ => rfl, rfl⟩, rfl, rfl, fun s hs => nomatch hs⟩
      simp [python_callback, hf, hdrop, hval]
  | other =>
      refine ⟨⟨args.map marshal_arg, .nil, tab, 1⟩, ?_, rfl, by simp, rfl,
        fun _ => rfl, fun _ => rfl, fun _ => rfl,
        ⟨rfl, fun _ => rfl, fun _ => rfl, rfl⟩, rfl, rfl, fun s hs => nomatch hs⟩
      simp [python_callback, hf, hdrop, hval]

/-- A concrete host callable returning the int 7, and a hook table binding it
to slot 0, for the C5 witness. -/
def c5func : PyFunc Int := fun _ => PyObj.long 7

def c5funcs : Nat → Option (PyFunc Int) :=
  fun j => if j = 0 then Option.some c5func else Option.none

/-- Claim C5 witness: the marshaling theorem applied at slot 0 bound to a
callable returning int 7, invoked with the two positional arguments
`[int 3, nil]`; the callable receives `[long 3, none]` and the script gets
back VM int 7 with one-return-value semantics. -/
theorem python_callback_marshals_witness :
    c5funcs 0 = Option.some c5func ∧
    ∃ eff : CallbackEffect Int,
      python_callback c5funcs 0
          [BuzzObj.nil, BuzzObj.int 3, BuzzObj.nil] [] = Option.some eff ∧
      eff.hostArgs = [PyObj.long 3, PyObj.none] ∧
      eff.pushed = BuzzObj.int 7 ∧ eff.nret = 1 := by
  refine ⟨rfl, ?_⟩
  obtain ⟨eff, heq, hargs, _, hret, _, _, _, _, hpush, _, _⟩ :=
    python_callback_marshals c5funcs 0 c5func BuzzObj.nil
      [BuzzObj.int 3, BuzzObj.nil] [] rfl
  exact ⟨eff, heq, by rw [hargs]; rfl, by rw [hpush]; rfl, hret⟩

/-- `register_hook` (buzz_utility.c lines 314-325).

`resolve` embeds `PyObject_GetAttrString(python_module, ·)` followed by
`PyCallable_Check` (`none` = missing attribute or not callable).  The C code
first selects the VM (`vm = all_virtual_machines[vmid]`), then stores the
resolved attribute into the process-global `python_funcs[hook_number]` —
before the callable check — and returns 1 if it is not callable; on success
it registers `function_name` in THAT VM's global namespace bound to the C
trampoline `hooks[hook_number]` and returns 0. -/
def register_hook (st : BridgeState F) (resolve : String → Option (PyFunc F))
    (vmid : Nat) (hook_number : Nat) (function_name : String) :
    BridgeState F × Int :=
  let st1 : BridgeState F :=
    { st with
      currentVM := Option.some vmid
      pythonFuncs := fun j =>
        if j = hook_number then resolve function_name else st.pythonFuncs j }
  match resolve function_name with
  | Option.none => (st1, 1)
  | Option.some _ =>
      (modifyVM st1 vmid (fun v =>
        { v with hookGlobals := v.hookGlobals ++ [(function_name, hook_number)] }),
       0)

/-- The host callable that the trampoline of slot `hook_id` invokes when the
script calls the registered name inside VM `vm_context`: the trampoline
`h<hook_id>` calls `python_callback(vm, hook_id)`, which calls
`PyObject_CallObject(python_funcs[hook_id], ...)` (line 143) — the VM context
never enters the lookup, only the single global array does. -/
def hook_callable (st : BridgeState F) (vm_context : Nat) (hook_id : Nat) :
    Option (PyFunc F) :=
  st.pythonFuncs hook_id

/-- The full trampoline invocation of slot `hook_id` from VM `vm_context`
with local-symbol frame `lsyms`: argument marshaling and string interning use
the invoking VM's string table, the callable lookup uses the global table. -/
def invoke_hook (st : BridgeState F) (vm_context : Nat) (hook_id : Nat)
    (lsyms : List (BuzzObj F)) : Option (CallbackEffect F) :=
  python_callback st.pythonFuncs hook_id lsyms
    (((st.vms vm_context).map BuzzVM.strtab).getD [])

/-- Claim C8: after `register_hook(vmid, k, name)` succeeds, slot `k`
dispatches to one process-global host callable: the trampoline invoked from
ANY VM context calls that same callable (the VM identity is only call
context, not part of slot identity), the invocation succeeds from any VM,
and a later successful re-registration of slot `k` — from any VM — overwrites
the callable seen from all VM contexts (last-writer-wins). -/
theorem register_hook_global_slot (st : BridgeState F)
    (resolve : String → Option (PyFunc F)) (vmid k : Nat) (name : String)
    (f : PyFunc F) (hres : resolve name = Option.some f) :
    (register_hook st resolve vmid k name).2 = 0 ∧
    (∀ vm_context : Nat,
      hook_callable (register_hook st resolve vmid k name).1 vm_context k =
        Option.some f) ∧
    (∀ vm_context : Nat, ∀ self : BuzzObj F, ∀ args : List (BuzzObj F),
      ∃ eff, invoke_hook (register_hook st resolve vmid k name).1 vm_context k
        (self :: args) = Option.some eff) ∧
    (∀ resolve2 : String → Option (PyFunc F), ∀ vmid2 : Nat, ∀ name2 : String,
      ∀ g : PyFunc F, resolve2 name2 = Option.some g →
      ∀ vm_context : Nat,
        hook_callable
          (register_hook (register_hook st resolve vmid k name).1
            resolve2 vmid2 k name2).1 vm_context k = Option.some g) := by
  have hfuncs :
      ∀ vm_context : Nat,
        hook_callable (register_hook st resolve vmid k name).1 vm_context k =
          Option.some f := by
    intro vc
    simp [register_hook, hres, hook_callable, modifyVM]
  refine ⟨by simp [register_hook, hres], hfuncs, ?_, ?_⟩
  · intro vc self args
    obtain ⟨eff, heq, _⟩ :=
      python_callback_marshals
        ((register_hook st resolve vmid k name).1).pythonFuncs k f self args
        (((((register_hook st resolve vmid k name).1).vms vc).map
          BuzzVM.strtab).getD []) (hfuncs vc)
    exact ⟨eff, heq⟩
  · intro resolve2 vmid2 name2 g hg vc
    simp [register_hook, hres, hg, hook_callable, modifyVM]

/-- A module resolving the names "cb" and "cb2" to distinct callables, for
the C8 witness. -/
def c8resolve : String → Option (PyFunc Int) :=
  fun name =>
    if name = "cb" then Option.some c5func
    else if name = "cb2" then Option.some (fun _ => PyObj.other)
    else Option.none

/-- Claim C8 witness: registering slot 3 from VM 0 to "cb" succeeds, the
trampoline of slot 3 sees that callable from VM 5's context too, dispatch
from VM 5 succeeds, and re-registering slot 3 from VM 1 to "cb2" overwrites
the callable seen from VM 0's context. -/
theorem register_hook_global_slot_witness :
    c8resolve "cb" = Option.some c5func ∧
    ((register_hook freshScenario c8resolve 0 3 "cb").2 = 0 ∧
     hook_callable (register_hook freshScenario c8resolve 0 3 "cb").1 5 3 =
       Option.some c5func ∧
     (∃ eff, invoke_hook (register_hook freshScenario c8resolve 0 3 "cb").1
        5 3 [BuzzObj.nil] = Option.some eff) ∧
     hook_callable
       (register_hook (register_hook freshScenario c8resolve 0 3 "cb").1
         c8resolve 1 3 "cb2").1 0 3 =
       Option.some (fun _ => PyObj.other)) := by
  refine ⟨rfl, ?_⟩
  obtain ⟨h0, hglob, hinv, hover⟩ :=
    register_hook_global_slot freshScenario c8resolve 0 3 "cb" c5func rfl
  exact ⟨h0, hglob 5, hinv 5 BuzzObj.nil [], hover c8resolve 1 "cb2"
    (fun _ => PyObj.other) rfl 0⟩

/-! ## add_neighbor (Environment Injector) -/

/-- `add_neighbor` (buzz_utility.c lines 347-350): selects the VM, then calls
`buzzneighbors_add(vm, (uint16_t)neighbour_id, x, y, z)`.  The C cast of the
`int` argument to `uint16_t` reduces it modulo 2^16 (C unsigned conversion),
embedded as `(neighbour_id % 65536).toNat` (Int `%` by a positive modulus is
nonnegative).  `buzzneighbors_add` appends one entry to the VM's neighbor
structure. -/
def add_neighbor (st : BridgeState F) (vmid : Nat) (neighbour_id : Int)
    (x y z : F) : BridgeState F :=
  { modifyVM st vmid (fun v =>
      { v with neighbors :=
          v.neighbors ++ [((neighbour_id % 65536).toNat, x, y, z)] })
    with currentVM := Option.some vmid }

/-- Claim C9: for every integer id — including values outside the unsigned
16-bit range — `add_neighbor(vmid, id, x, y, z)` appends exactly one neighbor
entry to the loaded VM at `vmid`, and the stored id equals `id` modulo 2^16
(in particular it lies in `[0, 65536)`): out-of-range ids silently wrap
rather than fail. -/
theorem add_neighbor_wraps_mod_2_16 (st : BridgeState F) (vmid : Nat)
    (v : BuzzVM F) (id : Int) (x y z : F)
    (hv : st.vms vmid = Option.some v) :
    ∃ stored : Nat,
      vmNeighbors (add_neighbor st vmid id x y z) vmid =
        v.neighbors ++ [(stored, x, y, z)] ∧
      (stored : Int) = id % 65536 ∧ stored < 65536 := by
  refine ⟨(id % 65536).toNat, ?_, ?_, ?_⟩
  · simp [add_neighbor, vmNeighbors, modifyVM, setVM, hv]
  · exact Int.toNat_of_nonneg (Int.emod_nonneg id (by decide))
  · have h1 : id % 65536 < 65536 := Int.emod_lt_of_pos id (by decide)
    have h2 : (0 : Int) ≤ id % 65536 := Int.emod_nonneg id (by decide)
    omega

/-- Claim C9 witness: the wrap theorem applied to VM 0 of the one-load
registry with the out-of-range id 70000; the stored id is 70000 mod 2^16 =
4464. -/
theorem add_neighbor_wraps_mod_2_16_witness :
    freshScenario.vms 0 =
      Option.some { buzzvm_new Int with
        state := .ready, strtab := ["print", "log", "True", "False"] } ∧
    (∃ stored : Nat,
      vmNeighbors (add_neighbor freshScenario 0 70000 1 2 3) 0 =
        ({ buzzvm_new Int with
           state := .ready,
           strtab := ["print", "log", "True", "False"] : BuzzVM Int}).neighbors
          ++ [(stored, 1, 2, 3)] ∧
      (stored : Int) = 70000 % 65536 ∧ stored < 65536) :=
  ⟨rfl,
   add_neighbor_wraps_mod_2_16 freshScenario 0
     { buzzvm_new Int with
       state := .ready, strtab := ["print", "log", "True", "False"] }
     70000 1 2 3 rfl⟩

/-! ## get_next_message / get_message_size (Environment Extractor) -/

/-- `get_next_message` (buzz_utility.c lines 412-418): selects the VM, takes
the first payload of the VM's outbound queue (`buzzoutmsg_queue_first`),
stores its byte size into the process-wide static `message_size`, pops the
queue (`buzzoutmsg_queue_next`) and returns the payload bytes.  Calling it on
an empty queue is undefined in C (callers must gate on `are_more_messages`);
the model returns `none` and changes no message state in that case. -/
def get_next_message (st : BridgeState F) (vmid : Nat) :
    Option (List Nat) × BridgeState F :=
  let st0 : BridgeState F := { st with currentVM := Option.some vmid }
  match st.vms vmid with
  | Option.none => (Option.none, st0)
  | Option.some v =>
      match v.outmsgs with
      | [] => (Option.none, st0)
      | m :: rest =>
          (Option.some m,
           { st0 with
             vms := setVM st0.vms vmid (Option.some { v with outmsgs := rest })
             messageSize := m.length })

/-- `get_message_size` (buzz_utility.c lines 420-422): returns the static
`message_size`, with no `vmid` parameter. -/
def get_message_size (st : BridgeState F) : Nat :=
  st.messageSize

/-- Claim C10: `get_message_size()` reports the byte size of the payload
returned by the most recent `get_next_message` call in the whole process, not
a per-VM value: after `get_next_message` on VM A (front payload `a`) and then
on a different VM B (front payload `b`), `get_message_size` returns `b`'s
size, and whenever the two sizes differ, A's size is no longer retrievable. -/
theorem get_message_size_process_wide (st : BridgeState F) (A B : Nat)
    (va vb : BuzzVM F) (a b : List Nat) (ra rb : List (List Nat))
    (hA : st.vms A = Option.some va) (ha : va.outmsgs = a :: ra)
    (hB : st.vms B = Option.some vb) (hb : vb.outmsgs = b :: rb)
    (hAB : A ≠ B) :
    get_message_size (get_next_message st A).2 = a.length ∧
    (get_next_message st A).1 = Option.some a ∧
    get_message_size (get_next_message (get_next_message st A).2 B).2 =
      b.length ∧
    (get_next_message (get_next_message st A).2 B).1 = Option.some b ∧
    (a.length ≠ b.length →
      get_message_size (get_next_message (get_next_message st A).2 B).2 ≠
        a.length) := by
  have hstep1 :
      (get_next_message st A).2.vms B = Option.some vb := by
    simp [get_next_message, hA, ha, setVM, Ne.symm hAB, hB]
  have h1 : get_message_size (get_next_message st A).2 = a.length := by
    simp [get_next_message, get_message_size, hA, ha]
  have h1v : (get_next_message st A).1 = Option.some a := by
    simp [get_next_message, hA, ha]
  have h2 : get_message_size (get_next_message (get_next_message st A).2 B).2 =
      b.length := by
    generalize hg : (get_next_message st A).2 = st1 at hstep1 ⊢
    simp [get_next_message, get_message_size, hstep1, hb]
  have h2v : (get_next_message (get_next_message st A).2 B).1 =
      Option.some b := by
    generalize hg : (get_next_message st A).2 = st1 at hstep1 ⊢
    simp [get_next_message, hstep1, hb]
  exact ⟨h1, h1v, h2, h2v, fun hne => by rw [h2]; exact fun h => hne h.symm⟩

/-- A two-VM registry where VM 0 has one 3-byte outbound payload queued and
VM 1 has one 2-byte payload, for the C10 witness. -/
def messageScenario : BridgeState Int :=
  { initialState Int with
    vms := fun j =>
      if j = 0 then Option.some { readyVM with outmsgs := [[10, 11, 12]] }
      else if j = 1 then Option.some { readyVM with outmsgs := [[20, 21]] }
      else Option.none
    numVMs := 2 }

/-- Claim C10 witness: the process-wide-size theorem applied to the two-VM
scenario — after pulling VM 0's 3-byte message and then VM 1's 2-byte
message, `get_message_size` reports 2 and no longer 3. -/
theorem get_message_size_process_wide_witness :
    messageScenario.vms 0 =
      Option.some { readyVM with outmsgs := [[10, 11, 12]] } ∧
    messageScenario.vms 1 =
      Option.some { readyVM with outmsgs := [[20, 21]] } ∧
    (get_message_size (get_next_message messageScenario 0).2 = 3 ∧
     (get_next_message messageScenario 0).1 = Option.some [10, 11, 12] ∧
     get_message_size
        (get_next_message (get_next_message messageScenario 0).2 1).2 = 2 ∧
     (get_next_message (get_next_message messageScenario 0).2 1).1 =
        Option.some [20, 21] ∧
     ((3 : Nat) ≠ 2 →
       get_message_size
          (get_next_message (get_next_message messageScenario 0).2 1).2 ≠
         3)) := by
  refine ⟨rfl, rfl, ?_⟩
  have h := get_message_size_process_wide messageScenario 0 1
    { readyVM with outmsgs := [[10, 11, 12]] }
    { readyVM with outmsgs := [[20, 21]] }
    [10, 11, 12] [20, 21] [] [] rfl rfl rfl rfl (by decide)
  exact h

end PyBuzz
